import Mathlib

/-!
Verification of the field-extraction core of `fuel_logger_app.py`
(`ReceiptParser.__init__`, `ReceiptParser.parse`, `ReceiptParser._find_match`,
and the inline price-per-gallon derivation).

The embedding is shallow and executable:

* Python `re` patterns (compiled with `re.IGNORECASE`) are embedded as values
  of an inductive `Pat`; every quantified subpattern in the source's rule
  table is either a single character class or an optional group, so the
  backtracking matcher `mtch` below realises exactly Python's leftmost /
  alternation-order / greedy-with-backtracking semantics for these patterns.
* Python floats are modelled as rationals (`ℚ`); all numeric values reached
  by the claims are exactly representable, and `round(x, 3)` is modelled as
  round-half-to-even at three decimals (`pyRound3`).
* `float(str)` / `int(str)` conversions are modelled as `Option`-valued
  parsers over the character alphabet the capture groups can actually
  produce (digits, dots, whitespace); a failed conversion is the
  `ValueError` that `_find_match` catches.
* The Python dict returned by `parse` is modelled as an association list in
  insertion order, with `PyVal` the type of stored values (`vNone` is
  Python's `None`; `vMatch` models the raw `re.Match` object stored under
  the `gallons_a` key by its capture).  Since CPython allocates a fresh
  match object per call and `re.Match` compares by identity under `==`,
  `PyValId` and `parseWithId` refine this with the allocated object's
  identity, and `pyValEq` / `pyRecordEq` embed Python's `==` on values and
  records; `stripId` / `parseWithId_strip` relate the two levels.
-/

/-- Python whitespace class `\s` restricted to ASCII. -/
def pyWs (c : Char) : Bool :=
  c == ' ' || c == '\t' || c == '\n' || c == '\r' || c == '\x0b' || c == '\x0c'

/-- Python word class `\w` restricted to ASCII: letters, digits, underscore. -/
def pyWord (c : Char) : Bool :=
  c.isAlphanum || c == '_'

/-- Character class matching a dash or a slash, used by the date pattern. -/
def dashSlash (c : Char) : Bool :=
  c == '-' || c == '/'

/-- Character class `[:\s]` used as label separator run in most patterns. -/
def labelSep (c : Char) : Bool :=
  c == ':' || pyWs c

/-- Character class `[:#\s]` used by the invoice pattern. -/
def invSep (c : Char) : Bool :=
  c == ':' || c == '#' || pyWs c

/-- Character class `[\d\.]` used by the gallons and price patterns. -/
def digitDot (c : Char) : Bool :=
  c.isDigit || c == '.'

/-- Character class `[A-Za-z0-9]` used by the invoice pattern. -/
def alnumC (c : Char) : Bool :=
  c.isAlphanum

/-- Character class `[APap]` used by the time pattern. -/
def apC (c : Char) : Bool :=
  c == 'A' || c == 'P' || c == 'a' || c == 'p'

/-- Character class `[Mm]` used by the time pattern. -/
def mC (c : Char) : Bool :=
  c == 'M' || c == 'm'

/-- Character class `[\w\s,.-]` used by the address pattern. -/
def addrC (c : Char) : Bool :=
  pyWord c || pyWs c || c == ',' || c == '.' || c == '-'

/-- Abstract syntax of the regex fragment used by `ReceiptParser`'s rule
table: literals (matched case-insensitively, for `re.IGNORECASE`),
character classes, sequencing, ordered alternation, greedy `?`, and greedy
`*`, `+`, `{lo,hi}` whose bodies are character classes, plus the single
capture group each rule has. -/
inductive Pat where
  | eps : Pat
  | lit (c : Char) : Pat
  | cls (f : Char → Bool) : Pat
  | seq (p q : Pat) : Pat
  | alt (p q : Pat) : Pat
  | opt (p : Pat) : Pat
  | star (f : Char → Bool) : Pat
  | plus (f : Char → Bool) : Pat
  | rep (f : Char → Bool) (lo hi : Nat) : Pat
  | grp (p : Pat) : Pat

/-- Length of the maximal prefix of `s` whose characters satisfy `f`. -/
def countWhile (f : Char → Bool) : List Char → Nat
  | [] => 0
  | a :: s => if f a then countWhile f s + 1 else 0

/-- Greedy backtracking over a character-class quantifier: try consuming
`lo + e` characters first, then back off one character at a time down to
`lo`, handing the remaining input to the continuation `k`. -/
def greedyDown (s : List Char) (cap : Option (List Char))
    (k : List Char → Option (List Char) → Option (List Char)) (lo : Nat) :
    Nat → Option (List Char)
  | 0 => k (s.drop lo) cap
  | e + 1 =>
    match k (s.drop (lo + (e + 1))) cap with
    | some r => some r
    | none => greedyDown s cap k lo e

/-- Backtracking matcher in continuation-passing style, anchored at the head
of `s`.  `cap` is the current group-1 capture; `k` receives the unconsumed
input and the capture.  Alternation tries its left branch first and `?`, `*`,
`+`, `{lo,hi}` are greedy, exactly as in Python `re`. -/
def mtch : Pat → List Char → Option (List Char) →
    (List Char → Option (List Char) → Option (List Char)) → Option (List Char)
  | .eps, s, cap, k => k s cap
  | .lit _, [], _, _ => none
  | .lit c, a :: s, cap, k => if a.toLower == c.toLower then k s cap else none
  | .cls _, [], _, _ => none
  | .cls f, a :: s, cap, k => if f a then k s cap else none
  | .seq p q, s, cap, k => mtch p s cap (fun s2 c2 => mtch q s2 c2 k)
  | .alt p q, s, cap, k =>
    (match mtch p s cap k with
     | some r => some r
     | none => mtch q s cap k)
  | .opt p, s, cap, k =>
    (match mtch p s cap k with
     | some r => some r
     | none => k s cap)
  | .star f, s, cap, k => greedyDown s cap k 0 (countWhile f s)
  | .plus f, s, cap, k =>
    (match countWhile f s with
     | 0 => none
     | n + 1 => greedyDown s cap k 1 n)
  | .rep f lo hi, s, cap, k =>
    (match min (countWhile f s) hi with
     | n =>
       if n < lo then none else greedyDown s cap k lo (n - lo))
  | .grp p, s, cap, k =>
    mtch p s cap (fun s2 _ => k s2 (some (s.take (s.length - s2.length))))

/-- Match attempt anchored at the head of `s`; on success returns the group-1
capture (every rule-table pattern has exactly one group, which always
participates in a successful match). -/
def matchAt (p : Pat) (s : List Char) : Option (List Char) :=
  mtch p s none (fun _ cap => some (cap.getD []))

/-- Embeds `pattern.search(text)`: try every start offset from left to right
and return the first successful match's capture — Python's leftmost-match
rule. -/
def searchAux (p : Pat) : List Char → Option (List Char)
  | [] => matchAt p []
  | a :: s =>
    (match matchAt p (a :: s) with
     | some r => some r
     | none => searchAux p s)

/-- Sequencing of a literal string, character by character. -/
def litStr (s : String) : Pat :=
  s.toList.foldr (fun c p => Pat.seq (Pat.lit c) p) Pat.eps

/-- Embeds the compiled pattern
`Date[:\s]*(\d{1,2}S\d{1,2}S\d{2,4})` where `S` stands for the
dash-or-slash class (key `date`). -/
def datePat : Pat :=
  .seq (litStr "Date") (.seq (.star labelSep)
    (.grp (.seq (.rep Char.isDigit 1 2) (.seq (.cls dashSlash)
      (.seq (.rep Char.isDigit 1 2) (.seq (.cls dashSlash)
        (.rep Char.isDigit 2 4)))))))

/-- Embeds the compiled pattern
`(?:Total|Total Sale|Amount Due|Total\s+Sale\s+S)[:\s]*\$?(\d+\.\d{2})`
(key `total`); the alternation is ordered as in the source. -/
def totalPat : Pat :=
  .seq (.alt (litStr "Total")
        (.alt (litStr "Total Sale")
          (.alt (litStr "Amount Due")
            (.seq (litStr "Total") (.seq (.plus pyWs)
              (.seq (litStr "Sale") (.seq (.plus pyWs) (litStr "S"))))))))
    (.seq (.star labelSep) (.seq (.opt (.lit '$'))
      (.grp (.seq (.plus Char.isDigit)
        (.seq (.lit '.') (.rep Char.isDigit 2 2))))))

/-- Embeds the compiled pattern
`Total\s+Sale\s+S\s+(\d+\s*\.\s*\d{2})` (key `total_sale`). -/
def totalSalePat : Pat :=
  .seq (litStr "Total") (.seq (.plus pyWs) (.seq (litStr "Sale")
    (.seq (.plus pyWs) (.seq (.lit 'S') (.seq (.plus pyWs)
      (.grp (.seq (.plus Char.isDigit) (.seq (.star pyWs)
        (.seq (.lit '.') (.seq (.star pyWs) (.rep Char.isDigit 2 2)))))))))))

/-- Embeds the compiled pattern `Gallons[:\s]*([\d\.]+)` (key `gallons`). -/
def gallonsPat : Pat :=
  .seq (litStr "Gallons") (.seq (.star labelSep) (.grp (.plus digitDot)))

/-- Embeds the compiled pattern `Gallons\s*([\d\.]+)` (key `gallons_a`). -/
def gallonsAPat : Pat :=
  .seq (litStr "Gallons") (.seq (.star pyWs) (.grp (.plus digitDot)))

/-- Embeds the compiled pattern
`(?:Price per Gallon|Price/Gallon|Price)[:\s]*\$?([\d\.]+)`
(key `price_per_gallon`). -/
def pricePat : Pat :=
  .seq (.alt (litStr "Price per Gallon")
        (.alt (litStr "Price/Gallon") (litStr "Price")))
    (.seq (.star labelSep) (.seq (.opt (.lit '$')) (.grp (.plus digitDot))))

/-- Embeds the compiled pattern
`(?:Invoice|Inuoice)[:#\s]*([A-Za-z0-9]+)` (key `invoice_number`). -/
def invoicePat : Pat :=
  .seq (.alt (litStr "Invoice") (litStr "Inuoice"))
    (.seq (.star invSep) (.grp (.plus alnumC)))

/-- Embeds the compiled pattern
`Time[:\s]*(\d{1,2}:\d{2}(?:\s*[APap][Mm])?)` (key `time`). -/
def timePat : Pat :=
  .seq (litStr "Time") (.seq (.star labelSep)
    (.grp (.seq (.rep Char.isDigit 1 2) (.seq (.lit ':')
      (.seq (.rep Char.isDigit 2 2)
        (.opt (.seq (.star pyWs) (.seq (.cls apC) (.cls mC)))))))))

/-- Embeds the compiled pattern
`Address[:\s]*([\w\s,.-]+(?:\s*\d{5})?)` (key `address`). -/
def addressPat : Pat :=
  .seq (litStr "Address") (.seq (.star labelSep)
    (.grp (.seq (.plus addrC)
      (.opt (.seq (.star pyWs) (.rep Char.isDigit 5 5))))))

/-- Embeds the compiled pattern `Odometer[:\s]*([\d]+)` (key `odometer`). -/
def odometerPat : Pat :=
  .seq (litStr "Odometer") (.seq (.star labelSep) (.grp (.plus Char.isDigit)))

/-- Numeric value of a digit string, most significant digit first. -/
def digitsVal (l : List Char) : Nat :=
  l.foldl (fun a c => a * 10 + (c.toNat - 48)) 0

/-- Strip leading and trailing Python whitespace from a character list. -/
def trimWs (l : List Char) : List Char :=
  ((l.dropWhile pyWs).reverse.dropWhile pyWs).reverse

/-- Embeds Python `float(s)` on the alphabet the rule-table captures can
produce (digits, dots, whitespace): surrounding whitespace is allowed, the
remainder must be `d+`, `d+.d*` or `.d+` — anything else (several dots, a
lone dot, internal spaces) raises `ValueError`, modelled as `none`.  The
resulting float is modelled exactly as a rational. -/
def pyFloat (l : List Char) : Option ℚ :=
  let t := trimWs l
  let pre := t.takeWhile Char.isDigit
  let rest := t.drop pre.length
  match rest with
  | [] =>
    if pre.isEmpty then none
    else some (Rat.divInt (Int.ofNat (digitsVal pre)) 1)
  | c :: post =>
    if c == '.' && post.all Char.isDigit && !(pre.isEmpty && post.isEmpty) then
      some (Rat.divInt (Int.ofNat (digitsVal (pre ++ post)))
        (Int.ofNat (10 ^ post.length)))
    else none

/-- Embeds Python `int(s)` on the alphabet the odometer capture can produce
(digits only): surrounding whitespace allowed, otherwise a nonempty digit
string; anything else raises `ValueError`, modelled as `none`. -/
def pyInt (l : List Char) : Option Int :=
  let t := trimWs l
  if !t.isEmpty && t.all Char.isDigit then some (digitsVal t) else none

/-- Values a `ReceiptParser.parse` record can store: Python `None`, a
string, a float (modelled as a rational), an int, or — for the `gallons_a`
key only — a raw `re.Match` object, modelled here by its capture alone;
`PyValId` below refines `vMatch` with the allocated object's identity,
which Python `==` compares. -/
inductive PyVal where
  | vNone : PyVal
  | vStr (s : String) : PyVal
  | vFloat (q : ℚ) : PyVal
  | vInt (n : Int) : PyVal
  | vMatch (cap : List Char) : PyVal
deriving DecidableEq, Repr

/-- The default `cast_type=str` of `_find_match`: `str` on a matched string
is the identity and never raises. -/
def castStr (c : List Char) : Except String PyVal :=
  Except.ok (PyVal.vStr (String.mk c))

/-- The `cast_type=float` of `_find_match`: a `ValueError` from `float`
becomes `Except.error`. -/
def castFloat (c : List Char) : Except String PyVal :=
  match pyFloat c with
  | some q => Except.ok (PyVal.vFloat q)
  | none => Except.error "ValueError"

/-- The `cast_type=int` of `_find_match`: a `ValueError` from `int` becomes
`Except.error`. -/
def castInt (c : List Char) : Except String PyVal :=
  match pyInt c with
  | some n => Except.ok (PyVal.vInt n)
  | none => Except.error "ValueError"

/-- Embeds `ReceiptParser._find_match(pattern, text, group=1, cast_type)`:
search for the pattern, return the cast of capture group 1, and turn a
conversion failure (the caught `ValueError`) into `None`.  With one always-
participating group per pattern, the caught `IndexError` cannot occur. -/
def find_match (p : Pat) (cv : List Char → Except String PyVal)
    (s : List Char) : PyVal :=
  match searchAux p s with
  | none => PyVal.vNone
  | some c =>
    match cv c with
    | Except.ok v => v
    | Except.error _ => PyVal.vNone

/-- Round half to even, Python's rounding mode for `round`: with `f` the
floor of `x`, the fractional part `x - f` equals `n / x.den`, and the three
branches compare it with one half by comparing `2 * n` with `x.den`. -/
def rhe (x : ℚ) : Int :=
  let f := x.floor
  let n := x.num - f * (x.den : Int)
  if 2 * n < (x.den : Int) then f
  else if (x.den : Int) < 2 * n then f + 1
  else if f % 2 = 0 then f else f + 1

/-- Embeds Python `round(x, 3)` on the rational model of floats:
`rhe (x * 1000) / 1000`, written with `Rat.divInt` so that it evaluates by
kernel reduction. -/
def pyRound3 (q : ℚ) : ℚ :=
  Rat.divInt (rhe (Rat.divInt (q.num * 1000) (q.den : Int))) 1000

/-- Exact rational division `a / b`, written with `Rat.divInt` so that it
evaluates by kernel reduction; `qdiv_eq_div` below identifies it with the
field division of `ℚ`. -/
def qdiv (a b : ℚ) : ℚ :=
  Rat.divInt (a.num * (b.den : Int)) ((a.den : Int) * b.num)

/-- The body of the derivation `try` block, lines 121-124 of the source:
`round(Total / Gallons, 3)`, where a zero divisor raises
`ZeroDivisionError` (modelled as `none`, the value the handler stores). -/
def tryDivRound (t g : ℚ) : Option ℚ :=
  if g = 0 then none else some (pyRound3 (qdiv t g))

/-- Embeds lines 119-124 of `ReceiptParser.parse`: if `Total` and `Gallons`
are not `None`, `Gallons > 0`, and `Price_per_Gallon` is `None`, store
`round(Total / Gallons, 3)`, with the `except ZeroDivisionError` handler
storing `None`; otherwise `Price_per_Gallon` is left unchanged. -/
def derivePPG : PyVal → PyVal → PyVal → PyVal
  | .vFloat t, .vFloat g, .vNone =>
    if 0 < g then
      match tryDivRound t g with
      | some q => .vFloat q
      | none => .vNone
    else .vNone
  | _, _, p => p

/-- Embeds `ReceiptParser.parse(text)`: the record is the Python dict in
insertion order, including the leftover keys `total_sale` and `gallons_a`
(the latter holding the raw `re.search` result, not a `_find_match` value),
followed by the inline price-per-gallon derivation. -/
def parse (text : String) : List (String × PyVal) :=
  let s := text.toList
  let date := find_match datePat castStr s
  let total := find_match totalPat castFloat s
  let gallons := find_match gallonsPat castFloat s
  let total_sale := find_match totalSalePat castFloat s
  let gallons_a :=
    match searchAux gallonsAPat s with
    | some c => PyVal.vMatch c
    | none => PyVal.vNone
  let ppg := find_match pricePat castFloat s
  let invoice := find_match invoicePat castStr s
  let time := find_match timePat castStr s
  let address := find_match addressPat castStr s
  let odometer := find_match odometerPat castInt s
  let ppg2 := derivePPG total gallons ppg
  [("Date", date), ("Total", total), ("Gallons", gallons),
   ("total_sale", total_sale), ("gallons_a", gallons_a),
   ("Price_per_Gallon", ppg2), ("Invoice_Number", invoice),
   ("Time", time), ("Address", address), ("Odometer", odometer)]

/-- Record values refined with object identity: like `PyVal`, but the raw
`re.Match` stored under `gallons_a` additionally carries the identity `oid`
of the allocated object.  CPython allocates a fresh match object on every
successful `search` call, so two distinct `parse` calls hold match objects
with distinct identities; `re.Match` defines no `__eq__`, hence Python `==`
on match objects is identity comparison.  `PyVal` (capture only) is the
quotient of this type by that identity; `stripId` below realises it. -/
inductive PyValId where
  | vNone : PyValId
  | vStr (s : String) : PyValId
  | vFloat (q : ℚ) : PyValId
  | vInt (n : Int) : PyValId
  | vMatch (oid : Nat) (cap : List Char) : PyValId
deriving DecidableEq, Repr

/-- Injection of `_find_match` results into the identity-aware value type;
`_find_match` never returns a match object, so the `vMatch` arm (given the
dummy identity 0) is unreachable from `parseWithId`. -/
def toId : PyVal → PyValId
  | .vNone => .vNone
  | .vStr s => .vStr s
  | .vFloat q => .vFloat q
  | .vInt n => .vInt n
  | .vMatch c => .vMatch 0 c

/-- Forgetting object identity, the quotient map from `PyValId` back to
`PyVal`. -/
def stripId : PyValId → PyVal
  | .vNone => .vNone
  | .vStr s => .vStr s
  | .vFloat q => .vFloat q
  | .vInt n => .vInt n
  | .vMatch _ c => .vMatch c

/-- Embeds `ReceiptParser.parse(text)` like `parse`, but additionally
records the identity `oid` of the `re.Match` object the call allocates for
the `gallons_a` entry: two distinct calls are embedded with two distinct
`oid` tokens, since CPython allocates a fresh object per call.
`parseWithId_strip` below shows this is the same record as `parse` once
identity is forgotten. -/
def parseWithId (oid : Nat) (text : String) : List (String × PyValId) :=
  let s := text.toList
  let date := find_match datePat castStr s
  let total := find_match totalPat castFloat s
  let gallons := find_match gallonsPat castFloat s
  let total_sale := find_match totalSalePat castFloat s
  let gallons_a :=
    match searchAux gallonsAPat s with
    | some c => PyValId.vMatch oid c
    | none => PyValId.vNone
  let ppg := find_match pricePat castFloat s
  let invoice := find_match invoicePat castStr s
  let time := find_match timePat castStr s
  let address := find_match addressPat castStr s
  let odometer := find_match odometerPat castInt s
  let ppg2 := derivePPG total gallons ppg
  [("Date", toId date), ("Total", toId total), ("Gallons", toId gallons),
   ("total_sale", toId total_sale), ("gallons_a", gallons_a),
   ("Price_per_Gallon", toId ppg2), ("Invoice_Number", toId invoice),
   ("Time", toId time), ("Address", toId address),
   ("Odometer", toId odometer)]

/-- The executable division `qdiv` agrees with the field division of `ℚ`
whenever the divisor is nonzero. -/
theorem qdiv_eq_div (t g : ℚ) (hg : g ≠ 0) : qdiv t g = t / g := by
  have hgn : (g.num : ℚ) ≠ 0 := by
    exact_mod_cast Rat.num_ne_zero.mpr hg
  have htd : ((t.den : ℚ)) ≠ 0 := by
    exact_mod_cast t.den_ne_zero
  have hgd : ((g.den : ℚ)) ≠ 0 := by
    exact_mod_cast g.den_ne_zero
  rw [qdiv, Rat.divInt_eq_div]
  push_cast
  rw [div_eq_div_iff (by positivity) hg]
  calc (t.num : ℚ) * (g.den : ℚ) * g
      = ((t.num : ℚ) / (t.den : ℚ)) * ((g.den : ℚ) * (t.den : ℚ)) * g := by
        field_simp
        ring
    _ = t * ((g.den : ℚ) * g) * (t.den : ℚ) := by rw [Rat.num_div_den]; ring
    _ = t * ((t.den : ℚ) * (g.num : ℚ)) := by
        rw [mul_comm (g.den : ℚ) g]
        nth_rewrite 1 [← Rat.num_div_den g]
        field_simp
        ring

/-- The end-to-end scenario text fixed by the specification. -/
def t0 : String :=
  "Date: 03/14/2024 Time: 10:15 AM Gallons 12.500 Total Sale $43.75 Invoice# 9091 Address: 100 Main St, Springfield 62704 Odometer: 45210"

/-- If the anchored match fails at every offset below `i`, the search of the
whole text coincides with the search started at offset `i`. -/
theorem search_skip (p : Pat) :
    ∀ (i : Nat) (s : List Char),
      (∀ j, j < i → matchAt p (s.drop j) = none) →
      searchAux p s = searchAux p (s.drop i) := by
  intro i
  induction i with
  | zero => intro s _; rfl
  | succ n ih =>
    intro s h
    cases s with
    | nil => simp [List.drop_nil]
    | cons a s =>
      have h0 : matchAt p (a :: s) = none := h 0 (Nat.succ_pos n)
      have hs : searchAux p (a :: s) = searchAux p s := by
        simp [searchAux, h0]
      rw [hs, List.drop_succ_cons]
      exact ih s (fun j hj => h (j + 1) (Nat.succ_lt_succ hj))

/-- A successful anchored match at the head of the text is returned by the
search. -/
theorem search_head (p : Pat) (s : List Char) (c : List Char)
    (h : matchAt p s = some c) : searchAux p s = some c := by
  cases s with
  | nil => simpa [searchAux] using h
  | cons a s => simp [searchAux, h]

/-- The `Address` entry of the record is the value `_find_match` computed
with the address rule and the `str` converter. -/
theorem lookup_address_parse (T : String) :
    List.lookup "Address" (parse T) =
      some (find_match addressPat castStr T.toList) := rfl

/-- Forgetting identity after injecting a `_find_match` value changes
nothing. -/
theorem stripId_toId (v : PyVal) : stripId (toId v) = v := by
  cases v <;> rfl

/-- Unfolding lemma for `stripId` at `None`. -/
theorem stripId_vNone : stripId PyValId.vNone = PyVal.vNone := rfl

/-- Unfolding lemma for `stripId` at a match object. -/
theorem stripId_vMatch (i : Nat) (c : List Char) :
    stripId (PyValId.vMatch i c) = PyVal.vMatch c := rfl

/-- Forgetting object identity, `parseWithId` is exactly `parse`: the
refinement adds only the identity of the `gallons_a` match object. -/
theorem parseWithId_strip (oid : Nat) (T : String) :
    (parseWithId oid T).map (fun e => (e.1, stripId e.2)) = parse T := by
  cases h : searchAux gallonsAPat T.data <;>
    simp [parseWithId, parse, h, stripId_toId, stripId_vNone, stripId_vMatch]

/-- C1 (amended): for every input string, `ReceiptParser.parse` returns a
record whose key list, in insertion order, is exactly the ten keys `Date`,
`Total`, `Gallons`, `total_sale`, `gallons_a`, `Price_per_Gallon`,
`Invoice_Number`, `Time`, `Address`, `Odometer` — one more than the nine of
the claim, the extras being the leftover `total_sale` and `gallons_a`
entries, the latter holding a raw match result rather than a typed value. -/
theorem claim_C1 (T : String) :
    (parse T).map Prod.fst =
      ["Date", "Total", "Gallons", "total_sale", "gallons_a",
       "Price_per_Gallon", "Invoice_Number", "Time", "Address",
       "Odometer"] := rfl

/-- C1 (counterexample): already on the empty string the record has ten
keys, not nine, among them `gallons_a` and `total_sale`, which are not
declared field names. -/
theorem claim_C1_cex :
    ((parse "").map Prod.fst).length = 10 ∧
      "gallons_a" ∈ (parse "").map Prod.fst ∧
      "total_sale" ∈ (parse "").map Prod.fst := by
  refine ⟨rfl, ?_, ?_⟩ <;> decide

/-- C2: `_find_match` maps every failure — the pattern not matching
anywhere, or the matched capture failing type conversion with a
`ValueError` — to `None` instead of propagating an exception; together with
the fact that `parse` is a total function of its input text, no input can
make extraction abort. -/
theorem claim_C2 (p : Pat) (cv : List Char → Except String PyVal)
    (s : List Char)
    (h : searchAux p s = none ∨
      ∃ c e, searchAux p s = some c ∧ cv c = Except.error e) :
    find_match p cv s = PyVal.vNone := by
  rcases h with h | ⟨c, e, hc, he⟩
  · simp [find_match, h]
  · simp [find_match, hc, he]

/-- C2 (witness): on `"Gallons ."` the gallons rule captures `"."`, whose
`float` conversion raises `ValueError`, and the field resolves to `None`. -/
theorem claim_C2_witness :
    find_match gallonsPat castFloat ("Gallons .".toList) = PyVal.vNone :=
  claim_C2 gallonsPat castFloat ("Gallons .".toList)
    (Or.inr ⟨['.'], "ValueError", rfl, rfl⟩)

/-- C3: whenever `Price_per_Gallon` is `None` while `Total` and `Gallons`
carry values with `Gallons > 0`, the derivation stores
`round(Total / Gallons, 3)`; in particular `Total = 40.00`, `Gallons = 10.0`
yields `4.0`. -/
theorem claim_C3 :
    (∀ t g : ℚ, 0 < g →
      derivePPG (PyVal.vFloat t) (PyVal.vFloat g) PyVal.vNone =
        PyVal.vFloat (pyRound3 (t / g))) ∧
    derivePPG (PyVal.vFloat 40) (PyVal.vFloat 10) PyVal.vNone =
      PyVal.vFloat 4 := by
  constructor
  · intro t g hg
    have hne : g ≠ 0 := ne_of_gt hg
    simp [derivePPG, tryDivRound, hg, hne, qdiv_eq_div t g hne]
  · decide

/-- C3 (witness): the general derivation rule applied at `Total = 40`,
`Gallons = 10`. -/
theorem claim_C3_witness :
    derivePPG (PyVal.vFloat 40) (PyVal.vFloat 10) PyVal.vNone =
      PyVal.vFloat (pyRound3 (40 / 10)) :=
  claim_C3.1 40 10 (by norm_num)

/-- C4: with `Gallons = 0.0` and `Price_per_Gallon` absent, the derivation
guard `Gallons > 0` fails for every value of `Total`, so `Price_per_Gallon`
stays `None` and the division is never reached. -/
theorem claim_C4 (t : PyVal) :
    derivePPG t (PyVal.vFloat 0) PyVal.vNone = PyVal.vNone := by
  cases t <;> rfl

set_option maxRecDepth 100000 in
/-- C5 (amended): on the end-to-end scenario text the pipeline yields
`Date = "03/14/2024"`, `Time = "10:15 AM"`, `Gallons = 12.5`,
`Total = 43.75`, a derived `Price_per_Gallon = 3.5`,
`Invoice_Number = "9091"`, `Odometer = 45210` — but
`Address = "100 Main St, Springfield 62704 Odometer"`: the greedy address
rule also swallows the following `Odometer` label.  The record additionally
carries the leftover `total_sale` (no match, `None`) and `gallons_a` (raw
match of `"12.500"`) entries. -/
theorem claim_C5 :
    parse t0 =
      [("Date", PyVal.vStr "03/14/2024"),
       ("Total", PyVal.vFloat (Rat.divInt 175 4)),
       ("Gallons", PyVal.vFloat (Rat.divInt 25 2)),
       ("total_sale", PyVal.vNone),
       ("gallons_a", PyVal.vMatch "12.500".toList),
       ("Price_per_Gallon", PyVal.vFloat (Rat.divInt 7 2)),
       ("Invoice_Number", PyVal.vStr "9091"),
       ("Time", PyVal.vStr "10:15 AM"),
       ("Address", PyVal.vStr "100 Main St, Springfield 62704 Odometer"),
       ("Odometer", PyVal.vInt 45210)] := by decide

set_option maxRecDepth 100000 in
/-- C5 (counterexample): on the scenario text the extracted `Address` is not
the claimed `"100 Main St, Springfield 62704"`; the greedy capture runs on
to `"... 62704 Odometer"`. -/
theorem claim_C5_cex :
    List.lookup "Address" (parse t0) ≠
      some (PyVal.vStr "100 Main St, Springfield 62704") ∧
    List.lookup "Address" (parse t0) =
      some (PyVal.vStr "100 Main St, Springfield 62704 Odometer") := by
  constructor
  · decide
  · decide

/-- C7 (amended): when the address rule matches, the extracted `Address` is
the captured string exactly as matched — no trimming of surrounding
whitespace is applied (the `str` converter is the identity). -/
theorem claim_C7 (T : String) (c : List Char)
    (h : searchAux addressPat T.toList = some c) :
    List.lookup "Address" (parse T) = some (PyVal.vStr (String.mk c)) := by
  rw [lookup_address_parse]
  unfold find_match
  rw [h]
  rfl

/-- C7 (witness): on `"Address: x"` the address rule captures `"x"` and the
record stores exactly that string. -/
theorem claim_C7_witness :
    List.lookup "Address" (parse "Address: x") =
      some (PyVal.vStr (String.mk ['x'])) :=
  claim_C7 "Address: x" ['x'] rfl

/-- C7 (counterexample): on `"Address: a "` the capture is `"a "` with a
trailing space and the record stores it untrimmed — not the trimmed `"a"`
the claim requires (and a whitespace-only capture would likewise be stored,
not replaced by `None`). -/
theorem claim_C7_cex :
    List.lookup "Address" (parse "Address: a ") =
      some (PyVal.vStr "a ") ∧
    List.lookup "Address" (parse "Address: a ") ≠
      some (PyVal.vStr "a") := by
  constructor
  · decide
  · decide

/-- C8: the search used by every field rule returns the match at the first
text offset where the anchored match succeeds (leftmost precedence), and on
`"Total $10.00 ... Total Sale $20.00"` the `Total` field resolves to the
first occurrence's `10.00`. -/
theorem claim_C8 :
    (∀ (p : Pat) (s : List Char) (i : Nat) (c : List Char),
      (∀ j, j < i → matchAt p (s.drop j) = none) →
      matchAt p (s.drop i) = some c →
      searchAux p s = some c) ∧
    List.lookup "Total" (parse "Total $10.00 ... Total Sale $20.00") =
      some (PyVal.vFloat 10) := by
  constructor
  · intro p s i c h1 h2
    rw [search_skip p i s h1]
    exact search_head p _ c h2
  · decide

/-- C8 (witness): on `"a Total 3.00"` the first matching offset is 2 and the
search returns that match's capture `"3.00"`. -/
theorem claim_C8_witness :
    searchAux totalPat ("a Total 3.00".toList) = some ("3.00".toList) :=
  claim_C8.1 totalPat ("a Total 3.00".toList) 2 ("3.00".toList)
    (by decide) (by decide)

/-- C9 (amended): the invoice rule tolerates the OCR misspelling `Inuoice`:
the text `"Inuoice# 4471"` yields `Invoice_Number = "4471"` — provided the
misspelled occurrence is the first point where the invoice rule matches,
since extraction always uses the first match in text order. -/
theorem claim_C9 :
    List.lookup "Invoice_Number" (parse "Inuoice# 4471") =
      some (PyVal.vStr "4471") := rfl

/-- C9 (counterexample): a text containing `"Inuoice"` followed by a token
need not yield that token — an earlier occurrence of the invoice label wins:
on `"Invoice 1 Inuoice 4471"` the extracted invoice number is `"1"`, not
`"4471"`. -/
theorem claim_C9_cex :
    List.lookup "Invoice_Number" (parse "Invoice 1 Inuoice 4471") =
      some (PyVal.vStr "1") ∧
    List.lookup "Invoice_Number" (parse "Invoice 1 Inuoice 4471") ≠
      some (PyVal.vStr "4471") := by
  constructor
  · decide
  · decide

/-- C10: under the guard `Gallons > 0` of the derivation branch, the divisor
is nonzero, so the `try` body always returns the rounded quotient and never
takes the `except ZeroDivisionError` path — the handler is dead code. -/
theorem claim_C10 (t g : ℚ) (hg : 0 < g) :
    tryDivRound t g = some (pyRound3 (t / g)) := by
  have hne : g ≠ 0 := ne_of_gt hg
  simp only [tryDivRound, if_neg hne, qdiv_eq_div t g hne]

/-- C10 (witness): the dead-handler theorem applied at `Total = 3`,
`Gallons = 2`. -/
theorem claim_C10_witness :
    tryDivRound 3 2 = some (pyRound3 (3 / 2)) :=
  claim_C10 3 2 (by norm_num)
